import Mathlib

/-!
Shallow embedding of the vy editor plugins under verification:
`vyapp/plugins/vyirc.py` (IRC client mode) and `vyapp/plugins/caps.py`
(case conversion commands).  Pure fragments of the Python code become
Lean functions; the stateful event machinery (the untwisted `xmap` /
`zmap` / `spawn` registry and the editor areas) becomes explicit state
passing over a `St` record.  Python exceptions become `Except` values.
-/

set_option autoImplicit false

namespace Vyirc

/-- Python percent formatting restricted to the `%s` directive, the only
directive occurring in the source format strings `H1 .. H9`.  Each `%s`
consumes the next argument; any other character is copied verbatim.
Surplus directives with no argument left render nothing (the source
never reaches that case). -/
def pyFmt : List Char → List String → String
  | [], _ => ""
  | '%' :: 's' :: cs, a :: rest => a ++ pyFmt cs rest
  | '%' :: 's' :: cs, [] => pyFmt cs []
  | c :: cs, rest => String.singleton c ++ pyFmt cs rest

/-- Apply a Python format string such as `H1` to its argument tuple. -/
def pyFormat (fmt : String) (args : List String) : String :=
  pyFmt fmt.data args

/-- Python `str.lower()`: lower each character. -/
def pyLower (s : String) : String :=
  String.mk (s.data.map Char.toLower)

/-- Source constant `H1`: chat message line. -/
def H1 : String := "<%s> %s\n"

/-- Source constant `H2`: topic line. -/
def H2 : String := "Topic :%s\n"

/-- Source constant `H3`: part line. -/
def H3 : String := ">>> %s has left %s <<<\n"

/-- Source constant `H4`: join line. -/
def H4 : String := ">>> %s has joined %s <<<\n"

/-- Source constant `H5`: nick change line. -/
def H5 : String := ">>> %s is now known as %s <<<\n"

/-- Source constant `H6`: peers list line. -/
def H6 : String := "Peers:%s\n"

/-- Source constant `H7`: quit line (registered handler ignores it). -/
def H7 : String := ">>> %s has quit (%s) <<<\n"

/-- Source constant `H8`: kick line. -/
def H8 : String := ">>> %s has kicked %s from %s (%s) <<<\n"

/-- Source constant `H9`: mode line.  Note the four `%s` slots and the
word `on`, applied in the source as `H9 % (nick, chan, mode, target)`. -/
def H9 : String := ">>> %s sets mode %s %s on %s <<<\n"

end Vyirc

namespace Vyirc

/-! ### Nick completion (`IrcMode.complete_nick` / `IrcMode.reset`)

The Python object keeps a single attribute `self.seq`, an iterator
returned by `area.complete_word(area.master)`.  `__init__` never sets
it.  We model the iterator as the list of candidates still to come, and
the possibly missing attribute as an `Option`. -/

/-- Python exceptions that the completion code can surface. -/
inductive PyErr where
  | attributeError
  deriving DecidableEq, Repr

/-- The completion relevant state of one `IrcMode` instance: the
`self.seq` attribute, absent (`none`) until the first `reset`. -/
structure IrcCompletion where
  seq : Option (List String)
  deriving DecidableEq, Repr

/-- The `IrcMode` constructor sets `misc, addr, port, user, nick,
irccmd, channels` but never `seq`; the fresh instance has no `seq`
attribute. -/
def mkIrcCompletion : IrcCompletion := { seq := none }

/-- An editor area as seen by the completion helper: the candidate
sequence that `area.complete_word(area.master)` would yield for the
word at the current cursor position. -/
structure CompArea where
  cands : List String
  deriving DecidableEq, Repr

/-- Source `IrcMode.reset`: `self.seq = area.complete_word(area.master)`,
a fresh iterator over the candidates at the present position. -/
def reset (m : IrcCompletion) (area : CompArea) : IrcCompletion :=
  { m with seq := some area.cands }

/-- Source `IrcMode.complete_nick`: `try: self.seq.next() except
StopIteration: pass`.  A missing `seq` attribute raises AttributeError,
which the `except` clause does not catch; an exhausted iterator raises
StopIteration, which is caught and absorbed, leaving the state
unchanged; otherwise the iterator advances one step and yields the next
candidate. -/
def complete_nick (m : IrcCompletion) :
    Except PyErr (IrcCompletion × Option String) :=
  match m.seq with
  | none => .error .attributeError
  | some [] => .ok (m, none)
  | some (c :: cs) => .ok ({ m with seq := some cs }, some c)

/-- Keys the IRC mode bindings of `set_common_irc_commands` distinguish
for completion purposes: `<Control-q>` advances, `<Control_R>` and
`<Control_L>` reset, and every other key is bound to an action that
does not touch `self.seq` (or to nothing at all). -/
inductive IrcKey where
  | ctrlQ
  | ctrlR
  | ctrlL
  | other
  deriving DecidableEq, Repr

/-- Effect of one key press on the completion state, following the
`area.install` bindings in `set_common_irc_commands`: only the three
bound keys reach `complete_nick` or `reset`; no other binding in the
module assigns to `self.seq`. -/
def onKey (m : IrcCompletion) (area : CompArea) (k : IrcKey) :
    Except PyErr IrcCompletion :=
  match k with
  | .ctrlQ => (complete_nick m).map (fun p => p.1)
  | .ctrlR => .ok (reset m area)
  | .ctrlL => .ok (reset m area)
  | .other => .ok m

/-- Run `n` successive advances (`complete_nick` presses), collecting
the candidates yielded in order; `none` if any press raises. -/
def runAdv (m : IrcCompletion) : Nat → Option (IrcCompletion × List String)
  | 0 => some (m, [])
  | n + 1 =>
    match complete_nick m with
    | .error _ => none
    | .ok (m1, o) =>
      match runAdv m1 n with
      | none => none
      | some (m2, out) => some (m2, o.toList ++ out)

end Vyirc

namespace Vyirc

/-! ### The IrcMode event machine

One `IrcMode` instance drives one connection.  The untwisted registry
(`xmap` appends a handler for an event key, `zmap` removes the first
matching registration, `spawn` runs the handlers of an event in
registration order) becomes an association list `handlers` on the state
below.  Numeric events are string keys exactly as in the source; the
untwisted constants `CLOSE` and `FOUND` are rendered as the keys
`"CLOSE"` and `"FOUND"`.  Editor areas (tabs) get consecutive numeric
ids; `areas` is the name-to-area table that `AreaVi.get_opened_files`
would report, in creation order, and `display` records every line
inserted into an area, in insertion order. -/

/-- Arguments of the `IrcMode` constructor. -/
structure Cfg where
  addr : String
  port : Nat
  user : String
  nick : String
  irccmd : String
  channels : List String
  deriving DecidableEq, Repr

/-- The handler closures the module registers with `xmap`.  Closures
created per channel carry the channel name and the id of the area they
capture, so that distinct `set_common_chan_handles` calls register
distinct handlers, as distinct Python lambda objects do. -/
inductive Handler where
  | onClose
  | motdCmd
  | autoJoin
  | mejoin (aid : Nat)
  | ping
  | found (aid : Nat)
  | pmsg
  | chanMsg (chan : String) (aid : Nat)
  | chanTopic (chan : String) (aid : Nat)
  | chanPart (chan : String) (aid : Nat)
  | chanJoin (chan : String) (aid : Nat)
  | chanMenick (chan : String) (aid : Nat)
  | chanNames (chan : String) (aid : Nat)
  | chanQuit (chan : String) (aid : Nat)
  | chanKick (chan : String) (aid : Nat)
  | chanMode (chan : String) (aid : Nat)
  | unsetH (chan : String) (aid : Nat)
  deriving DecidableEq, Repr

/-- The key bound callbacks installed with `area.hook` and
`area.install`. -/
inductive KeyAct where
  | chmodeIrc
  | sendRawCmd
  | startChat
  | completeNickK
  | resetK
  | sendMsgK (chan : String)
  deriving DecidableEq, Repr

/-- Whole observable state of one connection: the untwisted handler
registry, the outbound wire command trace, the open areas (tabs), the
lines written to each area, the key bindings, the Destroy bindings that
issue `PART`, the current nickname tracked by the untwisted `Misc`
helper, and the close flag. -/
structure St where
  handlers : List (String × Handler)
  outbound : List String
  areas : List (String × Nat)
  display : List (Nat × String)
  keyHooks : List (Nat × String × String × KeyAct)
  destroyBinds : List (Nat × String)
  curNick : String
  nextArea : Nat
  closed : Bool
  deriving DecidableEq, Repr

/-- Untwisted `xmap`: append one registration for the event key. -/
def xmap (st : St) (ev : String) (h : Handler) : St :=
  { st with handlers := st.handlers ++ [(ev, h)] }

/-- Remove the first occurrence of a registration, as Python
`list.remove` does inside untwisted `zmap`. -/
def removeFirst : List (String × Handler) → String × Handler →
    List (String × Handler)
  | [], _ => []
  | p :: ps, q => if p = q then ps else p :: removeFirst ps q

/-- Untwisted `zmap`: drop the first matching registration. -/
def zmap (st : St) (ev : String) (h : Handler) : St :=
  { st with handlers := removeFirst st.handlers (ev, h) }

/-- Untwisted `send_cmd`: emit one raw wire command line. -/
def send_cmd (st : St) (cmd : String) : St :=
  { st with outbound := st.outbound ++ [cmd] }

/-- Untwisted `send_msg`.  Modelled from the spec (the helper lives in
the external untwisted library): it emits the outbound wire command
`PRIVMSG <target> :<text>` listed among the external interfaces. -/
def send_msg_wire (st : St) (target data : String) : St :=
  send_cmd st ("PRIVMSG " ++ target ++ " :" ++ data)

/-- `root.note.create(name)`: open a fresh tab with the given name. -/
def note_create (st : St) (name : String) : St × Nat :=
  ({ st with areas := st.areas ++ [(name, st.nextArea)],
             nextArea := st.nextArea + 1 }, st.nextArea)

/-- Source `IrcMode.create_area`: open a tab, insert a blank couple of
lines and set the `CHDATA` insertion mark (the mark itself carries no
observable content here; insertion order is what `display` records). -/
def create_area (st : St) (name : String) : St × Nat :=
  let p := note_create st name
  ({ p.1 with display := p.1.display ++ [(p.2, "\n\n")] }, p.2)

/-- `area.insee(mark, line)`: append one formatted line to an area. -/
def insee (st : St) (aid : Nat) (line : String) : St :=
  { st with display := st.display ++ [(aid, line)] }

/-- `area.hook` and `area.install`: record one key binding. -/
def hook (st : St) (aid : Nat) (mode key : String) (act : KeyAct) : St :=
  { st with keyHooks := st.keyHooks ++ [(aid, mode, key, act)] }

/-- Source `IrcMode.set_common_irc_commands`: switch the area to IRC
mode and install the IRC key bindings (the mode switch itself has no
further observable effect in this model). -/
def set_common_irc_commands (st : St) (aid : Nat) : St :=
  let s1 := hook st aid "GAMMA" "<Key-i>" .chmodeIrc
  let s2 := hook s1 aid "IRC" "<Control-e>" .sendRawCmd
  let s3 := hook s2 aid "IRC" "<Control-c>" .startChat
  let s4 := hook s3 aid "IRC" "<Control-q>" .completeNickK
  let s5 := hook s4 aid "IRC" "<Control_R>" .resetK
  hook s5 aid "IRC" "<Control_L>" .resetK

/-- Source `IrcMode.set_common_chan_commands`: bind Return to
`send_msg` for the channel or peer of this area. -/
def set_common_chan_commands (st : St) (aid : Nat) (chan : String) : St :=
  hook st aid "IRC" "<Return>" (.sendMsgK chan)

/-- The `events` tuple built inside `set_common_chan_handles`, in
source order. -/
def chanEvents (chan : String) (aid : Nat) : List (String × Handler) :=
  [("PRIVMSG->" ++ chan, .chanMsg chan aid),
   ("332->" ++ chan, .chanTopic chan aid),
   ("PART->" ++ chan, .chanPart chan aid),
   ("JOIN->" ++ chan, .chanJoin chan aid),
   ("MENICK", .chanMenick chan aid),
   ("353->" ++ chan, .chanNames chan aid),
   ("QUIT", .chanQuit chan aid),
   ("KICK->" ++ chan, .chanKick chan aid),
   ("MODE", .chanMode chan aid)]

/-- Source `IrcMode.set_common_chan_handles`: register the nine channel
handlers, then register the local `unset` closure for the self part
event and for the self kick event. -/
def set_common_chan_handles (st : St) (aid : Nat) (chan : String) : St :=
  let s1 := (chanEvents chan aid).foldl (fun s p => xmap s p.1 p.2) st
  let s2 := xmap s1 ("PART->" ++ chan ++ "->MEPART") (.unsetH chan aid)
  xmap s2 ("KICK->" ++ chan ++ "->ME") (.unsetH chan aid)

/-- Body of the `unset` closure: `zmap` each of the nine registrations,
then `zmap` the self part registration of `unset` itself.  The self
kick registration of `unset` is not removed by the source. -/
def runUnset (st : St) (chan : String) (aid : Nat) : St :=
  let s1 := (chanEvents chan aid).foldl (fun s p => zmap s p.1 p.2) st
  zmap s1 ("PART->" ++ chan ++ "->MEPART") (.unsetH chan aid)

/-- Source `IrcMode.create_channel`: build the channel area, install
commands and handlers, and bind tab destruction to a `PART` command. -/
def create_channel (st : St) (chan : String) : St :=
  let p := create_area st chan
  let s1 := set_common_irc_commands p.1 p.2
  let s2 := set_common_chan_commands s1 p.2 chan
  let s3 := set_common_chan_handles s2 p.2 chan
  { s3 with destroyBinds := s3.destroyBinds ++ [(p.2, chan)] }

/-- Source `IrcMode.create_user_chat`: build a private chat area for
the nick, unconditionally, and return it. -/
def create_user_chat (st : St) (nick : String) : St × Nat :=
  let p := create_area st nick
  let s1 := set_common_irc_commands p.1 p.2
  (set_common_chan_commands s1 p.2 nick, p.2)

/-- Source `IrcMode.start_user_chat`: ask the user for a nick and
create the chat for whatever was typed. -/
def start_user_chat (st : St) (typed : String) : St :=
  (create_user_chat st typed).1

/-- Indexing the dict built by `deliver_user_msg` from the opened file
table: Python `dict(pairs)[key]` keeps the last binding of a duplicated
key, and the lookup yields `none` where Python raises KeyError. -/
def dictLookup (pairs : List (String × Nat)) (key : String) : Option Nat :=
  ((pairs.filter (fun p => p.1 == key)).getLast?).map (fun p => p.2)

/-- The lookup inside `deliver_user_msg`: every opened area name is
lowered, and the sender nick is lowered before indexing. -/
def lookupNickArea (st : St) (nick : String) : Option Nat :=
  dictLookup (st.areas.map (fun p => (pyLower p.1, p.2))) (pyLower nick)

/-- Observable actions of one `deliver_user_msg` call, in order. -/
inductive DAct where
  | created (aid : Nat) (nick : String)
  | appended (aid : Nat) (line : String)
  deriving DecidableEq, Repr

/-- Source `IrcMode.deliver_user_msg`: look the sender up among the
opened areas, case insensitively; on KeyError create the user chat
first; the `finally` block then appends the `H1` formatted line to the
area either way.  The call also returns the action trace. -/
def deliver_user_msg (st : St) (nick msg : String) : St × List DAct :=
  match lookupNickArea st nick with
  | some aid =>
    (insee st aid (pyFormat H1 [nick, msg]),
     [.appended aid (pyFormat H1 [nick, msg])])
  | none =>
    let p := create_user_chat st nick
    (insee p.1 p.2 (pyFormat H1 [nick, msg]),
     [.created p.2 nick, .appended p.2 (pyFormat H1 [nick, msg])])

/-- Source `IrcMode.send_msg`, the Return callback: read the composed
line, echo it locally under the current nickname kept by `Misc`, send
it as a private message to the channel or peer, and return the Tk token
that marks the key event consumed. -/
def send_msg (st : St) (aid : Nat) (chan data : String) : St × String :=
  let s1 := insee st aid (pyFormat H1 [st.curNick, data])
  (send_msg_wire s1 chan data, "break")

/-- Source `IrcMode.auto_join`: one `JOIN` per configured channel, in
list order. -/
def auto_join (cfg : Cfg) (st : St) : St :=
  cfg.channels.foldl (fun s c => send_cmd s ("JOIN " ++ c)) st

/-- Effect of one handler on the state, given the payload of the event
that fired it, positionally as the Python lambda receives it after
`con`.  Display handlers format with the `H` constants exactly as the
source lambdas do; `l7` (QUIT) does nothing; `unset` runs the
unregistration body. -/
def step (cfg : Cfg) (h : Handler) (payload : List String) (st : St) : St :=
  match h with
  | .onClose => { st with closed := true }
  | .motdCmd => send_cmd st cfg.irccmd
  | .autoJoin => auto_join cfg st
  | .mejoin _ => create_channel st (payload.getD 0 "")
  | .ping => send_cmd st ("PONG :" ++ payload.getD 1 "")
  | .found aid => insee st aid (payload.getD 0 "" ++ "\n")
  | .pmsg => (deliver_user_msg st (payload.getD 0 "") (payload.getD 4 "")).1
  | .chanMsg _ aid =>
    insee st aid (pyFormat H1 [payload.getD 0 "", payload.getD 3 ""])
  | .chanTopic _ aid => insee st aid (pyFormat H2 [payload.getD 2 ""])
  | .chanPart chan aid => insee st aid (pyFormat H3 [payload.getD 0 "", chan])
  | .chanJoin chan aid => insee st aid (pyFormat H4 [payload.getD 0 "", chan])
  | .chanMenick _ aid =>
    insee st aid (pyFormat H5 [payload.getD 0 "", payload.getD 3 ""])
  | .chanNames _ aid => insee st aid (pyFormat H6 [payload.getD 3 ""])
  | .chanQuit _ _ => st
  | .chanKick chan aid =>
    insee st aid
      (pyFormat H8 [payload.getD 0 "", payload.getD 3 "", chan, payload.getD 4 ""])
  | .chanMode _ aid =>
    insee st aid
      (pyFormat H9
        [payload.getD 0 "", payload.getD 3 "", payload.getD 4 "", payload.getD 5 ""])
  | .unsetH chan aid => runUnset st chan aid

/-- Untwisted `spawn`: run the handlers registered for the event, in
registration order, each on the state left by the previous one. -/
def dispatch (cfg : Cfg) (ev : String) (payload : List String) (st : St) : St :=
  ((st.handlers.filter (fun p => p.1 == ev)).map (fun p => p.2)).foldl
    (fun s h => step cfg h payload s) st

/-- State before the connection event: nothing registered, nothing
sent.  `Misc` will report the configured nickname until a nick change
event. -/
def initSt (cfg : Cfg) : St :=
  { handlers := [], outbound := [], areas := [], display := [],
    keyHooks := [], destroyBinds := [], curNick := cfg.nick,
    nextArea := 0, closed := false }

/-- Source `IrcMode.set_common_irc_handles`: instantiate `Misc` and
register the network level handlers, in source order. -/
def set_common_irc_handles (st : St) (aid : Nat) : St :=
  let s1 := xmap st "MEJOIN" (.mejoin aid)
  let s2 := xmap s1 "PING" .ping
  let s3 := xmap s2 "FOUND" (.found aid)
  xmap s3 "PMSG" .pmsg

/-- Source `IrcMode.set_up_con`, the CONNECT handler: open the network
tab, register the close handler, the common handlers and commands, the
two end-of-MOTD handlers in order (post-login command first, auto join
second), and finally send `NICK` then `USER`. -/
def set_up_con (cfg : Cfg) (st : St) : St :=
  let p := note_create st cfg.addr
  let s1 := xmap p.1 "CLOSE" .onClose
  let s2 := set_common_irc_handles s1 p.2
  let s3 := set_common_irc_commands s2 p.2
  let s4 := xmap s3 "376" .motdCmd
  let s5 := xmap s4 "376" .autoJoin
  let s6 := send_cmd s5 ("NICK " ++ cfg.nick)
  send_cmd s6 ("USER " ++ cfg.user)

/-- True when a handler closure belongs to the channel session of
`chan`: the channel display handlers and the `unset` closure carrying
that channel. -/
def Handler.refsChan (h : Handler) (chan : String) : Bool :=
  match h with
  | .chanMsg c _ => c == chan
  | .chanTopic c _ => c == chan
  | .chanPart c _ => c == chan
  | .chanJoin c _ => c == chan
  | .chanMenick c _ => c == chan
  | .chanNames c _ => c == chan
  | .chanQuit c _ => c == chan
  | .chanKick c _ => c == chan
  | .chanMode c _ => c == chan
  | .unsetH c _ => c == chan
  | _ => false

/-- Number of open sessions (tabs) whose name matches the given name
case insensitively. -/
def sessionCount (st : St) (name : String) : Nat :=
  (st.areas.filter (fun p => pyLower p.1 == pyLower name)).length

/-- A sample constructor call, as in the module docstring. -/
def cfg0 : Cfg :=
  { addr := "irc.freenode.org", port := 6667, user := "vy vy vy :vyirc",
    nick := "vyirc", irccmd := "PRIVMSG nickserv :identify x",
    channels := ["#vy"] }

/-- A concrete state with one open query session, named with a capital
letter, for witnesses. -/
def stBob : St :=
  { handlers := [], outbound := [], areas := [("Bob", 0)], display := [],
    keyHooks := [], destroyBinds := [], curNick := "vyirc",
    nextArea := 1, closed := false }

end Vyirc

namespace Caps

/-! ### caps.py (`lower` / `upper`)

`AreaVi.ACTIVE.tag_ranges(..)` returns a flat sequence of positions
`s1, e1, s2, e2, ...` of the selection of the globally active area.
The commands loop `for index in range(0, len(map) - 1, 2)` and call
`area.swap(area.get(map[index], map[index+1]).lower(), ...)` on the
area argument, which need not be the active area. -/

/-- An editor area for the case commands: its text, plus its own
selection ranges.  The commands receive `area` as argument but read the
selection from the globally active area, so `sel` here is carried only
to show it is ignored. -/
structure Area where
  text : List Char
  sel : List Nat
  deriving DecidableEq, Repr

/-- Source `area.get(i, j)`: the text between positions `i` and `j`. -/
def Area.get (a : Area) (i j : Nat) : List Char :=
  (a.text.drop i).take (j - i)

/-- Source `area.swap(data, i, j)`: replace the text between `i` and
`j` with `data`. -/
def Area.swap (a : Area) (data : List Char) (i j : Nat) : Area :=
  { a with text := a.text.take i ++ data ++ a.text.drop j }

/-- Python `range(0, len - 1, 2)` as used by both commands: the indices
`0, 2, 4, ...` strictly below `len - 1`.  For `len = 0` Python computes
`range(0, -1, 2) = []`; over `Nat` the guard `i + 1 < len` renders the
same bound. -/
def capsIdx (i len : Nat) : List Nat :=
  if h : i + 1 < len then i :: capsIdx (i + 2) len else []
termination_by len - i

/-- Shared body of `lower` and `upper`: fold the swap loop over the
index list of the active selection `map`, applying `tr` to each
selected stretch; also count the swaps performed. -/
def capsRun (tr : Char → Char) (activeSel : List Nat) (area : Area) :
    Area × Nat :=
  (capsIdx 0 activeSel.length).foldl
    (fun acc index =>
      let a := acc.1
      let i := activeSel.getD index 0
      let j := activeSel.getD (index + 1) 0
      (a.swap ((a.get i j).map tr) i j, acc.2 + 1))
    (area, 0)

/-- Source command `lower`: swap each stretch of the active selection
for its lower case image. -/
def lower (activeSel : List Nat) (area : Area) : Area × Nat :=
  capsRun Char.toLower activeSel area

/-- Source command `upper`: swap each stretch of the active selection
for its upper case image. -/
def upper (activeSel : List Nat) (area : Area) : Area × Nat :=
  capsRun Char.toUpper activeSel area

end Caps

/-!
## Theorems

Helper lemmas first, then one theorem per claim (with its witness or
counterexample where required).
-/

namespace Vyirc

/-- Character lists of the format string constants, for unfolding. -/
theorem H1_data : H1.data = ['<', '%', 's', '>', ' ', '%', 's', '\n'] := rfl

theorem H2_data :
    H2.data = ['T', 'o', 'p', 'i', 'c', ' ', ':', '%', 's', '\n'] := rfl

theorem H3_data :
    H3.data = ['>', '>', '>', ' ', '%', 's', ' ', 'h', 'a', 's', ' ', 'l',
      'e', 'f', 't', ' ', '%', 's', ' ', '<', '<', '<', '\n'] := rfl

theorem H4_data :
    H4.data = ['>', '>', '>', ' ', '%', 's', ' ', 'h', 'a', 's', ' ', 'j',
      'o', 'i', 'n', 'e', 'd', ' ', '%', 's', ' ', '<', '<', '<', '\n'] := rfl

theorem H5_data :
    H5.data = ['>', '>', '>', ' ', '%', 's', ' ', 'i', 's', ' ', 'n', 'o',
      'w', ' ', 'k', 'n', 'o', 'w', 'n', ' ', 'a', 's', ' ', '%', 's', ' ',
      '<', '<', '<', '\n'] := rfl

theorem H6_data :
    H6.data = ['P', 'e', 'e', 'r', 's', ':', '%', 's', '\n'] := rfl

theorem H8_data :
    H8.data = ['>', '>', '>', ' ', '%', 's', ' ', 'h', 'a', 's', ' ', 'k',
      'i', 'c', 'k', 'e', 'd', ' ', '%', 's', ' ', 'f', 'r', 'o', 'm', ' ',
      '%', 's', ' ', '(', '%', 's', ')', ' ', '<', '<', '<', '\n'] := rfl

theorem H9_data :
    H9.data = ['>', '>', '>', ' ', '%', 's', ' ', 's', 'e', 't', 's', ' ',
      'm', 'o', 'd', 'e', ' ', '%', 's', ' ', '%', 's', ' ', 'o', 'n', ' ',
      '%', 's', ' ', '<', '<', '<', '\n'] := rfl

/-- Registrations present right after the connect event, in order. -/
theorem set_up_con_handlers (cfg : Cfg) :
    (set_up_con cfg (initSt cfg)).handlers =
      [("CLOSE", .onClose), ("MEJOIN", .mejoin 0), ("PING", .ping),
       ("FOUND", .found 0), ("PMSG", .pmsg), ("376", .motdCmd),
       ("376", .autoJoin)] := rfl

/-- Wire commands sent by the connect event alone. -/
theorem set_up_con_outbound (cfg : Cfg) :
    (set_up_con cfg (initSt cfg)).outbound =
      ["NICK " ++ cfg.nick, "USER " ++ cfg.user] := rfl

/-- The auto join loop appends one `JOIN` per configured channel, in
list order, to whatever was already sent. -/
theorem auto_join_outbound (cfg : Cfg) (st : St) :
    (auto_join cfg st).outbound =
      st.outbound ++ cfg.channels.map (fun c => "JOIN " ++ c) := by
  unfold auto_join
  induction cfg.channels generalizing st with
  | nil => simp
  | cons c cs ih => rw [List.foldl_cons, ih]; simp [send_cmd]

/-- C1: after the connect event the outbound trace is exactly
`NICK <nick>` then `USER <user>`, and dispatching the end-of-MOTD event
`376` extends it with the configured post-login command first, then one
`JOIN <channel>` per configured channel, in list order. -/
theorem C1_motd_command_sequence (cfg : Cfg) :
    (set_up_con cfg (initSt cfg)).outbound =
      ["NICK " ++ cfg.nick, "USER " ++ cfg.user] ∧
    (dispatch cfg "376" [] (set_up_con cfg (initSt cfg))).outbound =
      ["NICK " ++ cfg.nick, "USER " ++ cfg.user, cfg.irccmd] ++
        cfg.channels.map (fun c => "JOIN " ++ c) := by
  constructor
  · exact set_up_con_outbound cfg
  · simp [dispatch, set_up_con_handlers, step, auto_join_outbound,
      send_cmd, set_up_con_outbound]

/-- C2: joining `#vy` (the `MEJOIN` event) and then leaving it through
either transition path (self part `PART->#vy->MEPART`, or self kick
`KICK->#vy->ME`) leaves the registration
`("KICK->#vy->ME", unset)` alive: the `unset` closure removes the nine
channel handlers and its own part registration but not its kick
registration, so the set of live registrations referencing the channel
is not empty, contradicting the claim. -/
theorem C2_unset_leaves_kick_registration :
    ((dispatch cfg0 "PART->#vy->MEPART" []
        (dispatch cfg0 "MEJOIN" ["#vy"]
          (set_up_con cfg0 (initSt cfg0)))).handlers.filter
      (fun p => p.2.refsChan "#vy")) =
      [("KICK->#vy->ME", .unsetH "#vy" 1)] ∧
    ((dispatch cfg0 "KICK->#vy->ME" []
        (dispatch cfg0 "MEJOIN" ["#vy"]
          (set_up_con cfg0 (initSt cfg0)))).handlers.filter
      (fun p => p.2.refsChan "#vy")) =
      [("KICK->#vy->ME", .unsetH "#vy" 1)] := by
  constructor <;> decide

/-- C3 counterexample: starting a user chat twice for the nick `bob`
on the same connection yields two open query sessions for the same
(connection, nickname) pair, so the uniqueness invariant fails. -/
theorem C3_counterexample_duplicate_query :
    sessionCount (start_user_chat (start_user_chat
      (set_up_con cfg0 (initSt cfg0)) "bob") "bob") "bob" = 2 := by
  decide

/-- C3 amended: message delivery alone never duplicates a session:
when a case insensitive match exists, `deliver_user_msg` reuses it and
opens no new area; uniqueness is not maintained by the explicit
`start_user_chat` path. -/
theorem C3_deliver_reuses_existing (st : St) (n m : String) (aid : Nat)
    (h : lookupNickArea st n = some aid) :
    (deliver_user_msg st n m).1.areas = st.areas ∧
    (deliver_user_msg st n m).2 = [.appended aid (pyFormat H1 [n, m])] := by
  simp [deliver_user_msg, h, insee]

/-- C3 witness: delivering to `bob` with the session `Bob` open reuses
the open area and creates nothing. -/
theorem C3_deliver_reuses_existing_witness :
    (deliver_user_msg stBob "bob" "hi").1.areas = stBob.areas ∧
    (deliver_user_msg stBob "bob" "hi").2 =
      [.appended 0 (pyFormat H1 ["bob", "hi"])] :=
  C3_deliver_reuses_existing stBob "bob" "hi" 0 (by decide)

/-- C4: when a session for `n` is open, looking it up through any case
variant `v` (any nick with the same lowering) finds the same area, and
delivering a message addressed to `v` appends to that same area. -/
theorem C4_case_variant_same_surface (st : St) (n v m : String) (aid : Nat)
    (h1 : lookupNickArea st n = some aid)
    (h2 : pyLower v = pyLower n) :
    lookupNickArea st v = some aid ∧
    (deliver_user_msg st v m).2 = [.appended aid (pyFormat H1 [v, m])] := by
  have hv : lookupNickArea st v = some aid := by
    unfold lookupNickArea at h1 ⊢
    rw [h2]
    exact h1
  exact ⟨hv, by simp [deliver_user_msg, hv]⟩

/-- C4 witness: with session `Bob` open, the variant `BOB` of `bob`
reaches the same area. -/
theorem C4_case_variant_same_surface_witness :
    lookupNickArea stBob "BOB" = some 0 ∧
    (deliver_user_msg stBob "BOB" "hi").2 =
      [.appended 0 (pyFormat H1 ["BOB", "hi"])] :=
  C4_case_variant_same_surface stBob "bob" "BOB" "hi" 0 (by decide) (by decide)

/-- C5: a delivery whose lookup misses creates exactly one new query
session and only then appends the formatted line to it; the KeyError of
the miss is consumed as the creation trigger, and the call returns
normally. -/
theorem C5_miss_creates_then_appends (st : St) (n m : String)
    (h : lookupNickArea st n = none) :
    (deliver_user_msg st n m).2 =
      [.created st.nextArea n,
       .appended st.nextArea (pyFormat H1 [n, m])] ∧
    (deliver_user_msg st n m).1.areas = st.areas ++ [(n, st.nextArea)] := by
  simp [deliver_user_msg, h, create_user_chat, create_area, note_create,
    set_common_irc_commands, set_common_chan_commands, hook, insee]

/-- C5 witness: a message from `Bob` with no session open creates area
0 and then appends to it. -/
theorem C5_miss_creates_then_appends_witness :
    (deliver_user_msg (initSt cfg0) "Bob" "hi").2 =
      [.created 0 "Bob", .appended 0 (pyFormat H1 ["Bob", "hi"])] ∧
    (deliver_user_msg (initSt cfg0) "Bob" "hi").1.areas =
      (initSt cfg0).areas ++ [("Bob", 0)] :=
  C5_miss_creates_then_appends (initSt cfg0) "Bob" "hi" (by decide)

/-- C6 counterexample: the MODE handler fires the four slot format
`H9` with the arguments `(nick, chan, mode, target)`, so a MODE event
with nick `n`, mode `+o` and target `t` on channel `#c` renders as
`>>> n sets mode #c +o on t <<<`, not as the claimed
`>>> n sets mode +o t <<<`. -/
theorem C6_counterexample_mode_format :
    (step cfg0 (.chanMode "#c" 1) ["n", "u", "h", "#c", "+o", "t"]
        (initSt cfg0)).display =
      [(1, ">>> n sets mode #c +o on t <<<\n")] ∧
    (">>> n sets mode #c +o on t <<<\n" : String) ≠
      ">>> n sets mode +o t <<<\n" := by
  constructor <;> decide

/-- C6 amended: every display line uses the source format strings: the
chat, topic, part, join, nick change, peers and kick lines render
exactly as the spec lists them, while the MODE line uses the four slot
format `>>> %s sets mode %s %s on %s <<<` applied to
`(nick, chan, mode, target)`. -/
theorem C6_display_formats (n m c peers tgt reason md tg nb : String) :
    pyFormat H1 [n, m] = "<" ++ n ++ "> " ++ m ++ "\n" ∧
    pyFormat H2 [m] = "Topic :" ++ m ++ "\n" ∧
    pyFormat H3 [n, c] = ">>> " ++ n ++ " has left " ++ c ++ " <<<\n" ∧
    pyFormat H4 [n, c] = ">>> " ++ n ++ " has joined " ++ c ++ " <<<\n" ∧
    pyFormat H5 [n, nb] = ">>> " ++ n ++ " is now known as " ++ nb ++
      " <<<\n" ∧
    pyFormat H6 [peers] = "Peers:" ++ peers ++ "\n" ∧
    pyFormat H8 [n, tgt, c, reason] = ">>> " ++ n ++ " has kicked " ++
      tgt ++ " from " ++ c ++ " (" ++ reason ++ ") <<<\n" ∧
    pyFormat H9 [n, c, md, tg] = ">>> " ++ n ++ " sets mode " ++ c ++
      " " ++ md ++ " on " ++ tg ++ " <<<\n" := by
  refine ⟨?_, ?_, ?_, ?_, ?_, ?_, ?_, ?_⟩ <;>
    simp [pyFormat, H1_data, H2_data, H3_data, H4_data, H5_data, H6_data,
      H8_data, H9_data, pyFmt, String.ext_iff, String.data_append,
      String.singleton]

/-- C7 counterexample: with a live completion cursor over `[a]` and the
fresh candidate sequence at the new position being `[x]`, a key other
than the two reset keys leaves the cursor untouched instead of
resetting it as the claim requires. -/
theorem C7_counterexample_other_key_keeps_cursor :
    onKey { seq := some ["a"] } { cands := ["x"] } .other =
      .ok { seq := some ["a"] } ∧
    (reset { seq := some ["a"] } { cands := ["x"] }).seq = some ["x"] ∧
    (some ["a"] : Option (List String)) ≠ some ["x"] := by
  refine ⟨rfl, rfl, by decide⟩

/-- Advancing an exhausted cursor any number of times stays absorbed. -/
theorem runAdv_exhausted (j : Nat) :
    runAdv { seq := some [] } j = some ({ seq := some [] }, []) := by
  induction j with
  | zero => rfl
  | succ n ih => simp [runAdv, complete_nick, ih]

/-- A cursor over `cs` yields exactly `cs`, in order, under
`cs.length + j` advances: the `j` surplus presses are absorbed. -/
theorem runAdv_yields (cs : List String) (j : Nat) :
    runAdv { seq := some cs } (cs.length + j) =
      some ({ seq := some [] }, cs) := by
  induction cs with
  | nil => simpa using runAdv_exhausted j
  | cons c cs ih =>
    have h : (c :: cs).length + j = (cs.length + j) + 1 := by
      simp [List.length_cons]; omega
    rw [h]
    simp [runAdv, complete_nick, ih]

/-- C7 amended: each trigger press advances the cursor one step,
yielding the candidates in order; surplus presses after exhaustion are
silently absorbed with the cursor state unchanged; the two reset keys
rebuild the cursor for the word at the new position; any other key
leaves the completion cursor unchanged rather than resetting it. -/
theorem C7_completion_cursor (cs : List String) (j : Nat)
    (m : IrcCompletion) (area : CompArea) :
    runAdv { seq := some cs } (cs.length + j) =
      some ({ seq := some [] }, cs) ∧
    complete_nick { seq := some [] } = .ok ({ seq := some [] }, none) ∧
    onKey m area .ctrlR = .ok (reset m area) ∧
    onKey m area .ctrlL = .ok (reset m area) ∧
    onKey m area .other = .ok m :=
  ⟨runAdv_yields cs j, rfl, rfl, rfl, rfl⟩

/-- C8: the Return binding installed for a channel or query area runs
`send_msg`, which appends the local echo formatted with the current
nickname, emits exactly one `PRIVMSG` to the session peer, and returns
the Tk `break` token that marks the key event consumed. -/
theorem C8_return_sends_echoes_consumes (st : St) (aid : Nat)
    (chan data : String) :
    (set_common_chan_commands st aid chan).keyHooks =
      st.keyHooks ++ [(aid, "IRC", "<Return>", .sendMsgK chan)] ∧
    (send_msg st aid chan data).1.display =
      st.display ++ [(aid, pyFormat H1 [st.curNick, data])] ∧
    (send_msg st aid chan data).1.outbound =
      st.outbound ++ ["PRIVMSG " ++ chan ++ " :" ++ data] ∧
    (send_msg st aid chan data).2 = "break" :=
  ⟨rfl, rfl, rfl, rfl⟩

/-- C9: a fresh `IrcMode` instance has no `seq` attribute, so the very
first advance raises AttributeError, which the `except StopIteration`
clause does not catch; after any reset the advance always returns
normally. -/
theorem C9_advance_before_reset_raises :
    complete_nick mkIrcCompletion = .error .attributeError ∧
    ∀ (m : IrcCompletion) (area : CompArea),
      ∃ p, complete_nick (reset m area) = .ok p := by
  refine ⟨rfl, fun m area => ?_⟩
  cases h : area.cands with
  | nil =>
    exact ⟨({ seq := some [] }, none), by simp [reset, complete_nick, h]⟩
  | cons c cs =>
    exact ⟨({ seq := some cs }, some c), by simp [reset, complete_nick, h]⟩

end Vyirc

namespace Caps

/-- The swap index list is empty when the selection is empty. -/
theorem capsIdx_zero : capsIdx 0 0 = [] := by
  rw [capsIdx]; simp

/-- C10: with an empty selection on the globally active area, both case
commands perform zero swaps and leave the area argument unchanged,
whatever that area holds, including a nonempty selection of its own
(the loop bound comes only from the active selection sequence). -/
theorem C10_empty_selection_noop (area : Area) :
    lower [] area = (area, 0) ∧ upper [] area = (area, 0) := by
  constructor <;> simp [lower, upper, capsRun, capsIdx_zero]

end Caps
